import Mathlib

/-!
Verification of the club sign-in kiosk (sign_in_app.py).

The embedding models the data-bearing behaviour of StudentSignInApp:
the roster loader, the daily log store (CSV files re-read and rewritten
through pandas), and the submit handler, together with the parts of the
pandas semantics the program depends on:

* pd.read_csv performs column-level type inference: a column whose every
  cell is a decimal numeral is loaded as an integer column; otherwise the
  cells stay strings.  We model a cell as either a natural number or a
  string (the program never produces negative or fractional data).
* comparing an integer column with a Python string (Series == str) yields
  elementwise False; comparing a string column is string equality.
* astype(str) / to_csv render an integer cell back to its decimal text.

Filesystem state is a map from the date string (the file
daily_logs/{date}.csv) to the optional content of that day's log file.
The Tk entry widget and status label are modelled by their text, a focus
flag, and the label's text and colour.
-/

namespace SignInApp

/-- A value held in one cell of a pandas DataFrame column: either an
inferred integer or a plain string. -/
inductive Cell
  | nat (n : Nat)
  | str (s : String)
  deriving DecidableEq, Repr

/-- Rendering a cell back to CSV text (to_csv / astype(str)). -/
def renderCell : Cell → String
  | .nat n => toString n
  | .str s => s

/-- Python str.strip(): drop whitespace from both ends of the text. -/
def pyStrip (s : String) : String :=
  ⟨((s.data.dropWhile Char.isWhitespace).reverse.dropWhile Char.isWhitespace).reverse⟩

/-- Decimal-numeral parse used by the read_csv column inference model. -/
def strToNat? (s : String) : Option Nat :=
  if s.data ≠ [] ∧ s.data.all Char.isDigit then
    some (s.data.foldl (fun acc c => 10 * acc + (c.toNat - 48)) 0)
  else
    none

/-- A column is loaded as integers exactly when every cell parses as a
decimal numeral (pandas whole-column inference). -/
def colNumeric (cells : List String) : Bool :=
  cells.all fun s => (strToNat? s).isSome

/-- Parse one cell of a column whose inferred numeric-ness is given. -/
def parseVia (numeric : Bool) (s : String) : Cell :=
  if numeric then .nat ((strToNat? s).getD 0) else .str s

/-- Load a raw text column the way pd.read_csv does. -/
def parseColumn (cells : List String) : List Cell :=
  cells.map (parseVia (colNumeric cells))

/-- Pandas comparison of a DataFrame cell with a Python string scalar:
an integer cell never equals a string; string cells compare as strings. -/
def cellEqStr : Cell → String → Bool
  | .nat _, _ => false
  | .str t, s => t == s

/-- One data row of a daily log CSV file, as text on disk. -/
structure LogRowText where
  sid : String
  status : String
  date : String
  time : String
  deriving DecidableEq, Repr

/-- One data row of the in-memory daily log DataFrame. -/
structure LogRow where
  sid : Cell
  status : Cell
  date : Cell
  time : Cell
  deriving DecidableEq, Repr

/-- The fixed schema of a daily log file. -/
def logSchema : List String := ["Student ID", "Status", "Date", "Time"]

/-- A daily log CSV file: its header line and its data rows in order. -/
structure LogFile where
  header : List String
  rows : List LogRowText
  deriving DecidableEq, Repr

/-- Serialise an in-memory row for to_csv. -/
def renderRow (r : LogRow) : LogRowText :=
  ⟨renderCell r.sid, renderCell r.status, renderCell r.date, renderCell r.time⟩

/-- pd.read_csv on the data rows of a daily log: each of the four columns
is inferred numeric or string as a whole, then every row is converted
cellwise, preserving count and order. -/
def readRows (rows : List LogRowText) : List LogRow :=
  rows.map fun r =>
    ⟨parseVia (colNumeric (rows.map LogRowText.sid)) r.sid,
     parseVia (colNumeric (rows.map LogRowText.status)) r.status,
     parseVia (colNumeric (rows.map LogRowText.date)) r.date,
     parseVia (colNumeric (rows.map LogRowText.time)) r.time⟩

/-- The daily_logs directory: each date string names at most one file. -/
def FS : Type := String → Option LogFile

/-- daily_log_generation: if today's file does not exist, create it with
the fixed schema and no rows; then load it with pd.read_csv. -/
def daily_log_generation (fs : FS) (current_date : String) : List LogRow × FS :=
  match fs current_date with
  | none =>
    (readRows [], fun d => if d = current_date then some ⟨logSchema, []⟩ else fs d)
  | some f => (readRows f.rows, fs)

/-- student_already_signed_in: filter the DataFrame to rows whose
Student ID equals the login and whose Status is "Signed In", and test
the filtered frame for non-emptiness. -/
def student_already_signed_in (df : List LogRow) (student_id : String) : Bool :=
  !(df.filter fun r => cellEqStr r.sid student_id && cellEqStr r.status "Signed In").isEmpty

/-- log_student_sign_in: concat one new all-string row onto the DataFrame
and rewrite the whole file at file_path with to_csv. -/
def log_student_sign_in (df : List LogRow) (fs : FS) (file_path : String)
    (student_id status current_date current_time : String) : FS :=
  let df2 := df ++ [(⟨.str student_id, .str status, .str current_date, .str current_time⟩ : LogRow)]
  fun d => if d = file_path then some ⟨logSchema, df2.map renderRow⟩ else fs d

/-- The state the submit handler touches: the log directory, the entry
widget's text and focus, and the status label's text and colour. -/
structure AppState where
  fs : FS
  entryText : String
  entryFocused : Bool
  statusText : String
  statusColor : String

/-- sign_in: the submit handler.  Strips the entry text; rejects blank
input, then non-roster input; otherwise loads today's log, toggles on the
existence check, appends, and clears and refocuses the entry. -/
def sign_in (valid_users : List String) (current_date current_time : String)
    (st : AppState) : AppState :=
  let login := pyStrip st.entryText
  if login = "" then
    { st with statusText := "Please enter a Student ID", statusColor := "red" }
  else if login ∉ valid_users then
    { st with entryText := "",
              statusText := "Please enter a valid STUDENT ID", statusColor := "red" }
  else
    let pr := daily_log_generation st.fs current_date
    if student_already_signed_in pr.1 login then
      { st with
          fs := log_student_sign_in pr.1 pr.2 current_date login "Signed Out"
                  current_date current_time,
          statusText := "Thank you. You have been successfully logged out.",
          statusColor := "green",
          entryText := "", entryFocused := true }
    else
      { st with
          fs := log_student_sign_in pr.1 pr.2 current_date login "Signed In"
                  current_date current_time,
          statusText := "Thank you. You have been signed in.",
          statusColor := "green",
          entryText := "", entryFocused := true }

/-- A general CSV table (the roster file): header and rows of text. -/
structure Csv where
  header : List String
  rows : List (List String)

/-- Index of the first column with the given (already stripped) name. -/
def colIndex? (name : String) : List String → Option Nat
  | [] => none
  | h :: t => if h = name then some 0 else (colIndex? name t).map (· + 1)

/-- load_valid_users_from_csv.  The argument is the roster file if it
exists.  Returns whether an error dialog was shown, and the roster: the
Student ID column (located after stripping header whitespace, loaded with
read_csv inference) converted to strings with astype(str).  Both failure
modes are caught inside the function, so it is total. -/
def load_valid_users_from_csv (file : Option Csv) : Bool × List String :=
  match file with
  | none => (true, [])
  | some csv =>
    match colIndex? "Student ID" (csv.header.map pyStrip) with
    | none => (true, [])
    | some i =>
      (false, (parseColumn (csv.rows.map fun r => r.getD i "")).map renderCell)

/-- A meeting-day session: the submit handler fired once per event, every
event on the same calendar date; an event is the typed entry text and the
wall-clock time of the submission. -/
def run (valid_users : List String) (current_date : String)
    (events : List (String × String)) (st : AppState) : AppState :=
  events.foldl
    (fun s e => sign_in valid_users current_date e.2 { s with entryText := e.1 }) st

/-! ## General lemmas -/

theorem colIndex?_eq_none_of_not_mem (name : String) (l : List String)
    (h : name ∉ l) : colIndex? name l = none := by
  induction l with
  | nil => rfl
  | cons a t ih =>
    rw [colIndex?, if_neg fun e => h (by rw [← e]; exact List.mem_cons_self a t),
      ih fun m => h (List.mem_cons_of_mem a m)]
    rfl

theorem daily_log_generation_frame (fs : FS) (d d2 : String) (h : d2 ≠ d) :
    (daily_log_generation fs d).2 d2 = fs d2 := by
  rcases hfd : fs d with _ | f <;> simp [daily_log_generation, hfd, h]

theorem log_student_sign_in_frame (df : List LogRow) (fs : FS)
    (path sid status cd ct p : String) (h : p ≠ path) :
    log_student_sign_in df fs path sid status cd ct p = fs p := by
  simp [log_student_sign_in, h]

theorem sign_in_fs_frame (valid_users : List String) (d t d2 : String)
    (st : AppState) (h : d2 ≠ d) :
    (sign_in valid_users d t st).fs d2 = st.fs d2 := by
  rw [sign_in]
  by_cases h1 : pyStrip st.entryText = ""
  · rw [if_pos h1]
  · rw [if_neg h1]
    by_cases h2 : pyStrip st.entryText ∉ valid_users
    · rw [if_pos h2]
    · rw [if_neg h2]
      by_cases hs : student_already_signed_in
          (daily_log_generation st.fs d).1 (pyStrip st.entryText) = true
      · rw [if_pos hs]
        exact (log_student_sign_in_frame (daily_log_generation st.fs d).1
            (daily_log_generation st.fs d).2 d (pyStrip st.entryText)
            "Signed Out" d t d2 h).trans (daily_log_generation_frame st.fs d d2 h)
      · rw [if_neg hs]
        exact (log_student_sign_in_frame (daily_log_generation st.fs d).1
            (daily_log_generation st.fs d).2 d (pyStrip st.entryText)
            "Signed In" d t d2 h).trans (daily_log_generation_frame st.fs d d2 h)

/-! ## Claims -/

/-- C2: for every in-memory table and identifier, student_already_signed_in
reports true if and only if the table contains at least one row whose
Student ID cell equals the identifier and whose Status cell equals
"Signed In" — a pure existence check, unaffected by any later
"Signed Out" rows. -/
theorem student_already_signed_in_iff_exists_signed_in_row
    (df : List LogRow) (student_id : String) :
    student_already_signed_in df student_id = true ↔
      ∃ r ∈ df, cellEqStr r.sid student_id = true ∧
        cellEqStr r.status "Signed In" = true := by
  simp [student_already_signed_in, List.isEmpty_iff, List.filter_eq_nil_iff]

/-- C3: a submission whose stripped text is non-empty but not on the
roster sets the red invalid-ID status and leaves every daily log file
untouched. -/
theorem sign_in_unknown_member_writes_nothing
    (valid_users : List String) (d t : String) (st : AppState)
    (h1 : pyStrip st.entryText ≠ "") (h2 : pyStrip st.entryText ∉ valid_users) :
    (sign_in valid_users d t st).fs = st.fs ∧
    (sign_in valid_users d t st).statusText = "Please enter a valid STUDENT ID" ∧
    (sign_in valid_users d t st).statusColor = "red" := by
  rw [sign_in, if_neg h1, if_pos h2]
  exact ⟨rfl, rfl, rfl⟩

/-- C3 witness: the unknown identifier 999 against an empty roster. -/
theorem sign_in_unknown_member_writes_nothing_witness :
    (sign_in [] "2026-10-12" "10:00:00"
        ⟨fun _ => none, "999", false, "", ""⟩).statusText =
      "Please enter a valid STUDENT ID" :=
  (sign_in_unknown_member_writes_nothing [] "2026-10-12" "10:00:00"
    ⟨fun _ => none, "999", false, "", ""⟩ (by decide) (by decide)).2.1

/-- C4: a submission that is blank after stripping whitespace sets the
red empty-ID status and leaves every daily log file untouched. -/
theorem sign_in_blank_input_writes_nothing
    (valid_users : List String) (d t : String) (st : AppState)
    (h : pyStrip st.entryText = "") :
    (sign_in valid_users d t st).fs = st.fs ∧
    (sign_in valid_users d t st).statusText = "Please enter a Student ID" ∧
    (sign_in valid_users d t st).statusColor = "red" := by
  rw [sign_in, if_pos h]
  exact ⟨rfl, rfl, rfl⟩

/-- C4 witness: a whitespace-only entry. -/
theorem sign_in_blank_input_writes_nothing_witness :
    (sign_in ["123"] "2026-10-12" "10:00:00"
        ⟨fun _ => none, "  ", true, "", ""⟩).statusText =
      "Please enter a Student ID" :=
  (sign_in_blank_input_writes_nothing ["123"] "2026-10-12" "10:00:00"
    ⟨fun _ => none, "  ", true, "", ""⟩ (by decide)).2.1

/-- The C1 scenario: roster loaded as the set containing the string
"123", an empty daily_logs directory, and the member typing 123. -/
def numericScenario0 : AppState := ⟨fun _ => none, "123", false, "", ""⟩

/-- State after the first submission of 123 on 2026-10-12. -/
def numericScenario1 : AppState :=
  sign_in ["123"] "2026-10-12" "10:00:00" numericScenario0

/-- State after the member types 123 again and submits a second time. -/
def numericScenario2 : AppState :=
  sign_in ["123"] "2026-10-12" "10:05:00" { numericScenario1 with entryText := "123" }

/-- C1: the claimed toggle fails on the code for a numeric member id.
With roster {"123"} and no log file for the day, the first submission
signs the member in, but the second submission ALSO reports
"You have been signed in." and appends a second Signed In row instead of
a Signed Out one: re-reading the rewritten CSV loads the all-numeric
Student ID column as integers, so the equality test against the string
login never matches and student_already_signed_in returns false. -/
theorem sign_in_numeric_member_never_logs_out :
    numericScenario1.statusText = "Thank you. You have been signed in." ∧
    numericScenario2.statusText = "Thank you. You have been signed in." ∧
    numericScenario2.fs "2026-10-12" = some ⟨logSchema,
      [⟨"123", "Signed In", "2026-10-12", "10:00:00"⟩,
       ⟨"123", "Signed In", "2026-10-12", "10:05:00"⟩]⟩ :=
  ⟨by decide, by decide, by decide⟩

/-- C5: the roster loader fails softly and fail-closed.  If the roster
file is missing, or its stripped header has no Student ID column, the
loader (a total function: both errors are caught inside it) reports the
error and returns the empty roster, and with that roster every non-blank
submission is rejected as an unknown member and writes nothing. -/
theorem load_valid_users_fail_closed
    (file : Option Csv)
    (h : file = none ∨ ∃ csv, file = some csv ∧ "Student ID" ∉ csv.header.map pyStrip) :
    load_valid_users_from_csv file = (true, []) ∧
    ∀ d t st, pyStrip st.entryText ≠ "" →
      (sign_in (load_valid_users_from_csv file).2 d t st).statusText =
        "Please enter a valid STUDENT ID" ∧
      (sign_in (load_valid_users_from_csv file).2 d t st).fs = st.fs := by
  have hl : load_valid_users_from_csv file = (true, []) := by
    rcases h with h | ⟨csv, rfl, hcol⟩
    · rw [h]; rfl
    · rw [load_valid_users_from_csv, colIndex?_eq_none_of_not_mem _ _ hcol]
  have h2 : (load_valid_users_from_csv file).2 = [] := by rw [hl]
  refine ⟨hl, fun d t st hne => ?_⟩
  rw [h2, sign_in, if_neg hne, if_pos (List.not_mem_nil _)]
  exact ⟨rfl, rfl⟩

/-- C5 witness: the missing roster file. -/
theorem load_valid_users_fail_closed_witness :
    load_valid_users_from_csv none = (true, []) :=
  (load_valid_users_fail_closed none (Or.inl rfl)).1

/-- C6 counterexample: a whitespace-only submission ends the handler with
the entry text still "   " and without the focus having been set, so the
entry field is neither cleared nor refocused on that submission. -/
theorem sign_in_entry_disposition_counterexample :
    ¬ ((sign_in ["123"] "2026-10-12" "10:00:00"
          ⟨fun _ => none, "   ", false, "", ""⟩).entryText = "" ∧
       (sign_in ["123"] "2026-10-12" "10:00:00"
          ⟨fun _ => none, "   ", false, "", ""⟩).entryFocused = true) := by
  decide

/-- C6 amended: the handler clears and refocuses the entry field only on
successful submissions; an unknown-member submission clears the text but
does not set focus; a blank submission leaves text and focus untouched. -/
theorem sign_in_entry_field_disposition
    (valid_users : List String) (d t : String) (st : AppState) :
    (pyStrip st.entryText = "" →
      (sign_in valid_users d t st).entryText = st.entryText ∧
      (sign_in valid_users d t st).entryFocused = st.entryFocused) ∧
    (pyStrip st.entryText ≠ "" → pyStrip st.entryText ∉ valid_users →
      (sign_in valid_users d t st).entryText = "" ∧
      (sign_in valid_users d t st).entryFocused = st.entryFocused) ∧
    (pyStrip st.entryText ≠ "" → pyStrip st.entryText ∈ valid_users →
      (sign_in valid_users d t st).entryText = "" ∧
      (sign_in valid_users d t st).entryFocused = true) := by
  refine ⟨fun h => ?_, fun h1 h2 => ?_, fun h1 h2 => ?_⟩
  · rw [sign_in, if_pos h]; exact ⟨rfl, rfl⟩
  · rw [sign_in, if_neg h1, if_pos h2]; exact ⟨rfl, rfl⟩
  · rw [sign_in, if_neg h1, if_neg (not_not_intro h2)]
    by_cases hs : student_already_signed_in
        (daily_log_generation st.fs d).1 (pyStrip st.entryText) = true
    · rw [if_pos hs]; exact ⟨rfl, rfl⟩
    · rw [if_neg hs]; exact ⟨rfl, rfl⟩

/-- C6 amended witness: a successful submission clears and refocuses. -/
theorem sign_in_entry_field_disposition_witness :
    (sign_in ["123"] "2026-10-12" "10:00:00"
        ⟨fun _ => none, "123", false, "", ""⟩).entryFocused = true :=
  ((sign_in_entry_field_disposition ["123"] "2026-10-12" "10:00:00"
      ⟨fun _ => none, "123", false, "", ""⟩).2.2 (by decide) (by decide)).2

/-- C7: daily_log_generation on the current date.  If no file exists for
the date, it returns the empty table and creates the file with the fixed
schema and zero rows, touching no other date; if a file exists, it
returns exactly that file's rows loaded with read_csv, one table row per
file row in file order, and leaves the directory unchanged. -/
theorem daily_log_generation_open_spec (fs : FS) (d : String) :
    (fs d = none →
      (daily_log_generation fs d).1 = [] ∧
      (daily_log_generation fs d).2 d = some ⟨logSchema, []⟩ ∧
      ∀ d2, d2 ≠ d → (daily_log_generation fs d).2 d2 = fs d2) ∧
    (∀ f, fs d = some f →
      (daily_log_generation fs d).1 = readRows f.rows ∧
      ((daily_log_generation fs d).1).length = f.rows.length ∧
      (daily_log_generation fs d).2 = fs) := by
  constructor
  · intro h
    refine ⟨by simp [daily_log_generation, h, readRows], by simp [daily_log_generation, h],
      fun d2 hne => by simp [daily_log_generation, h, hne]⟩
  · intro f h
    refine ⟨by simp [daily_log_generation, h], ?_, by simp [daily_log_generation, h]⟩
    simp [daily_log_generation, h, readRows]

/-- C7 witness: first access of 2026-10-12 on an empty directory. -/
theorem daily_log_generation_open_spec_witness :
    (daily_log_generation (fun _ => none) "2026-10-12").2 "2026-10-12" =
      some ⟨logSchema, []⟩ :=
  ((daily_log_generation_open_spec (fun _ => none) "2026-10-12").1 rfl).2.1

/-- C8: log_student_sign_in writes, at the given path, a file with the
fixed schema whose rows are the input table's rows serialised in their
original order followed by exactly one new row carrying the identifier,
status, current date and current time; every other file is untouched. -/
theorem log_student_sign_in_appends_one_row (df : List LogRow) (fs : FS)
    (path sid status cd ct : String) :
    log_student_sign_in df fs path sid status cd ct path =
      some ⟨logSchema, df.map renderRow ++ [⟨sid, status, cd, ct⟩]⟩ ∧
    ∀ p, p ≠ path → log_student_sign_in df fs path sid status cd ct p = fs p := by
  constructor
  · simp [log_student_sign_in, renderRow, renderCell]
  · intro p hp
    simp [log_student_sign_in, hp]

/-- C8 witness: one append, read back at the path and at another path. -/
theorem log_student_sign_in_appends_one_row_witness :
    log_student_sign_in [] (fun _ => none) "2026-10-12" "123" "Signed In"
      "2026-10-12" "10:00:00" "2026-10-11" = none :=
  (log_student_sign_in_appends_one_row [] (fun _ => none) "2026-10-12" "123"
    "Signed In" "2026-10-12" "10:00:00").2 "2026-10-11" (by decide)

/-- C9: a whole session of submissions processed on calendar date d
never creates or writes a log file for any other date: the directory
entry of every other date is exactly what it was before the session. -/
theorem run_touches_only_current_date (valid_users : List String) (d : String)
    (events : List (String × String)) (st : AppState) (d2 : String) (h : d2 ≠ d) :
    (run valid_users d events st).fs d2 = st.fs d2 := by
  induction events generalizing st with
  | nil => rfl
  | cons e es ih =>
    have hstep : run valid_users d (e :: es) st =
        run valid_users d es (sign_in valid_users d e.2 { st with entryText := e.1 }) := by
      simp [run]
    rw [hstep, ih]
    exact sign_in_fs_frame valid_users d e.2 d2 { st with entryText := e.1 } h

/-- C9 witness: a two-submission session on 2026-10-12 leaves the
previous day's (absent) log file absent. -/
theorem run_touches_only_current_date_witness :
    (run ["123"] "2026-10-12" [("123", "10:00:00"), ("123", "10:05:00")]
        ⟨fun _ => none, "", false, "", ""⟩).fs "2026-10-11" =
      (⟨fun _ => none, "", false, "", ""⟩ : AppState).fs "2026-10-11" :=
  run_touches_only_current_date ["123"] "2026-10-12"
    [("123", "10:00:00"), ("123", "10:05:00")]
    ⟨fun _ => none, "", false, "", ""⟩ "2026-10-11" (by decide)

/-- C10: the roster is the Student ID column of the roster file, loaded
with read_csv inference and converted cellwise to strings, and a
non-blank submission succeeds exactly when the stripped entry text is
string-equal to one of those strings; in particular the numeric roster
cell 123 is matched by the typed text 123. -/
theorem roster_stringified_and_membership_string_equality :
    (∀ header rows i, colIndex? "Student ID" (header.map pyStrip) = some i →
      load_valid_users_from_csv (some ⟨header, rows⟩) =
        (false, (parseColumn (rows.map fun r => r.getD i "")).map renderCell)) ∧
    (∀ valid_users d t st, pyStrip st.entryText ≠ "" →
      ((sign_in valid_users d t st).statusColor = "green" ↔
        ∃ u ∈ valid_users, u = pyStrip st.entryText)) ∧
    (load_valid_users_from_csv (some ⟨["Student ID"], [["123"]]⟩)).2 = ["123"] := by
  refine ⟨fun header rows i hi => ?_, fun valid_users d t st hne => ?_, by decide⟩
  · rw [load_valid_users_from_csv, hi]
  · rw [sign_in, if_neg hne]
    by_cases hm : pyStrip st.entryText ∈ valid_users
    · rw [if_neg (not_not_intro hm)]
      dsimp only
      split <;> exact iff_of_true rfl ⟨pyStrip st.entryText, hm, rfl⟩
    · rw [if_pos hm]
      refine iff_of_false (fun hgr => ?_) fun ⟨u, hu, he⟩ => hm (he ▸ hu)
      exact absurd (show ("red" : String) = "green" from hgr) (by decide)

/-- C10 witness: member 123, typed as the text 123, signs in green. -/
theorem roster_stringified_and_membership_string_equality_witness :
    (sign_in ["123"] "2026-10-12" "10:00:00"
        ⟨fun _ => none, "123", false, "", ""⟩).statusColor = "green" :=
  ((roster_stringified_and_membership_string_equality.2.1 ["123"] "2026-10-12"
      "10:00:00" ⟨fun _ => none, "123", false, "", ""⟩ (by decide)).mpr
    ⟨"123", by decide, by decide⟩)

end SignInApp
